import Mathlib

/-!
Verification of the retrieval-augmented QA pipeline of the Tengen.ai
repository against its natural-language specification.

The Python sources are shallowly embedded:
* JSON values (`json.load` results) become the inductive type `JVal`;
  Python truthiness, `str()`, `dict.get` and the `or` operator are
  modelled by `pyTruthy`, `pyStr`, `jget` and `pyOr`.
* Fallible Python code returns `Except PyExc`; a `try/except` block is a
  `match` on that result.
* The two loader variants `load_documents` (src/rag_pipeline.py and
  src/backend/rag_pipeline.py), `split_text`, `create_vectorstore`,
  `create_qa_chain`/`RetrievalQA` invocation, the FastAPI `/ask` handler
  (src/api.py) and `query_documents` (src/backend/rag_pipeline.py) are
  translated function by function.
* Components whose executable code lives in external libraries
  (the recursive text splitter, the vector store's persistence and
  similarity search) are modelled from the specification; each such
  definition carries a doc comment starting `Modelled from the spec:`.
-/

/-- A JSON value as produced by Python's `json.load`: `None`, booleans,
numbers (integral, which is all the claims need), strings, arrays and
objects.  Object fields are kept in file order. -/
inductive JVal : Type where
  | jnull : JVal
  | jbool : Bool → JVal
  | jnum : Int → JVal
  | jstr : String → JVal
  | jarr : List JVal → JVal
  | jobj : List (String × JVal) → JVal

/-- Python truthiness (`bool(x)`) of a JSON value: `None`, `False`, `0`,
`""`, `[]` and an empty dict are falsy, everything else is truthy. -/
def pyTruthy : JVal → Bool
  | .jnull => false
  | .jbool b => b
  | .jnum n => !(n == 0)
  | .jstr s => !(s == "")
  | .jarr xs => !xs.isEmpty
  | .jobj fs => !fs.isEmpty

mutual

/-- Python `repr()` of a JSON value (scalars, lists and dicts). -/
def pyRepr : JVal → String
  | .jnull => "None"
  | .jbool true => "True"
  | .jbool false => "False"
  | .jnum n => toString n
  | .jstr s => "\x27" ++ s ++ "\x27"
  | .jarr xs => "[" ++ pyReprList xs ++ "]"
  | .jobj fs => "\x7b" ++ pyReprFields fs ++ "\x7d"

/-- Comma-separated `repr`s of the elements of a Python list. -/
def pyReprList : List JVal → String
  | [] => ""
  | [x] => pyRepr x
  | x :: xs => pyRepr x ++ ", " ++ pyReprList xs

/-- Comma-separated `repr(key): repr(value)` pairs of a Python dict. -/
def pyReprFields : List (String × JVal) → String
  | [] => ""
  | [(k, v)] => "\x27" ++ k ++ "\x27: " ++ pyRepr v
  | (k, v) :: fs => "\x27" ++ k ++ "\x27: " ++ pyRepr v ++ ", " ++ pyReprFields fs

end

/-- Python `str()` of a JSON value: the identity on strings, `repr`
otherwise (matching CPython for scalars, lists and dicts). -/
def pyStr : JVal → String
  | .jstr s => s
  | v => pyRepr v

/-- `d.get(k)` on a Python dict: `some` of the stored value, `none` when
the key is absent.  Later duplicate keys win, as with `json.load`. -/
def jget (fs : List (String × JVal)) (k : String) : Option JVal :=
  fs.foldl (fun acc p => if p.1 == k then some p.2 else acc) none

/-- `d.get(k)` with Python's default: `None` for an absent key. -/
def jgetD (fs : List (String × JVal)) (k : String) : JVal :=
  (jget fs k).getD .jnull

/-- Python's `a or b`: `a` when `a` is truthy, otherwise `b`. -/
def pyOr (a b : JVal) : JVal :=
  if pyTruthy a then a else b

/-- The Python exceptions the embedded code can raise. -/
inductive PyExc : Type where
  | jsonDecodeError : String → PyExc
  | keyError : String → PyExc
  | typeError : String → PyExc
  | fileNotFoundError : PyExc
  | valueError : String → PyExc
  | httpException : Nat → String → PyExc
deriving DecidableEq

/-- Python `str()` of an exception, as used by `detail=str(e)`. -/
def pyExcStr : PyExc → String
  | .jsonDecodeError raw => "Invalid JSON: " ++ raw
  | .keyError k => "\x27" ++ k ++ "\x27"
  | .typeError m => m
  | .fileNotFoundError => "[Errno 2] No such file or directory"
  | .valueError m => m
  | .httpException c d => toString c ++ ": " ++ d

/-- A corpus file as seen by `json.load`: either malformed (the raw text,
on which `json.load` raises `JSONDecodeError`) or a parsed value. -/
inductive FileData : Type where
  | malformed : String → FileData
  | parsed : JVal → FileData

/-- A file of the data directory: name plus contents. -/
structure CorpusFile : Type where
  name : List Char
  data : FileData

/-- `filename.endswith(".json")`, with filenames as character lists. -/
def hasJsonExt (n : List Char) : Bool :=
  n.reverse.take 5 == ['n', 'o', 's', 'j', '.']

/-- `item["content"]` in the root loader: the stored value for a dict,
`KeyError` when absent, `TypeError` when `item` is not subscriptable by a
string (CPython raises `TypeError` for string/list/scalar subjects). -/
def rootRecordContent : JVal → Except PyExc JVal
  | .jobj fs =>
    match jget fs "content" with
    | some v => .ok v
    | none => .error (.keyError "content")
  | .jstr _ => .error (.typeError "string indices must be integers")
  | _ => .error (.typeError "object is not subscriptable")

/-- `for item in data` in the root loader: list elements for a list, the
keys for a dict, the characters for a string, `TypeError` otherwise. -/
def rootIterItems : JVal → Except PyExc (List JVal)
  | .jarr xs => .ok xs
  | .jobj fs => .ok (fs.map (fun p => .jstr p.1))
  | .jstr s => .ok (s.toList.map (fun c => .jstr (String.mk [c])))
  | _ => .error (.typeError "object is not iterable")

/-- One file of the root loader's loop body: `json.load` (raising on a
malformed file) then `documents.append(item["content"])` per item. -/
def rootProcessFile : FileData → Except PyExc (List JVal)
  | .malformed raw => .error (.jsonDecodeError raw)
  | .parsed v => do
    let items ← rootIterItems v
    items.mapM rootRecordContent

/-- `load_documents` of src/rag_pipeline.py (lines 12-23): iterate the
data directory, `json.load` each `.json` file, append `item["content"]`
for every item.  There is no `try`/`except`: any failure propagates.
`none` for the directory models an absent `data` directory, on which
`os.listdir` raises `FileNotFoundError`. -/
def load_documents_root (dir : Option (List CorpusFile)) : Except PyExc (List JVal) :=
  match dir with
  | none => .error .fileNotFoundError
  | some files =>
    files.foldlM
      (fun docs f =>
        if hasJsonExt f.name then do
          let ds ← rootProcessFile f.data
          pure (docs ++ ds)
        else
          pure docs)
      []

/-- The backend loader's field resolution (src/backend/rag_pipeline.py
line 37/42): `item.get("content") or item.get("text") or item.get("body")
or str(item)`. -/
def resolveContent (fs : List (String × JVal)) : JVal :=
  pyOr (jgetD fs "content")
    (pyOr (jgetD fs "text")
      (pyOr (jgetD fs "body") (.jstr (pyStr (.jobj fs)))))

/-- One record of the backend loader's list branch: field resolution for
a dict, `str(item)` otherwise (lines 34-40). -/
def procItem : JVal → JVal
  | .jobj fs => resolveContent fs
  | v => .jstr (pyStr v)

/-- The backend loader's shape dispatch (lines 33-45): a list of records,
a single object, or a bare scalar. -/
def processJson : JVal → List JVal
  | .jarr items => items.map procItem
  | .jobj fs => [resolveContent fs]
  | v => [.jstr (pyStr v)]

/-- One file of the backend loader: `json.load` then shape dispatch; a
malformed file surfaces as `JSONDecodeError` (caught by the caller). -/
def backendProcessFile : FileData → Except PyExc (List JVal)
  | .malformed raw => .error (.jsonDecodeError raw)
  | .parsed v => .ok (processJson v)

/-- Result of the backend loader: documents plus the recorded warnings
(the `print` per skipped file). -/
structure LoadResult : Type where
  documents : List JVal
  warnings : List (List Char)

/-- `load_documents` of src/backend/rag_pipeline.py (lines 16-54): an
absent data directory is created and yields `[]`; each `.json` file is
parsed inside a per-file `try`, a failing file is skipped with a recorded
warning, and the loop continues.  The surrounding `try`/`except` means
the function itself never raises, which is why every branch is `.ok`. -/
def load_documents_backend (dir : Option (List CorpusFile)) : Except PyExc LoadResult :=
  match dir with
  | none => .ok ⟨[], []⟩
  | some files =>
    .ok (files.foldl
      (fun acc f =>
        if hasJsonExt f.name then
          match backendProcessFile f.data with
          | .ok ds => ⟨acc.documents ++ ds, acc.warnings⟩
          | .error _ => ⟨acc.documents, acc.warnings ++ [f.name]⟩
        else acc)
      ⟨[], []⟩)

/-- The documents the backend loader extracts, file by file: valid
`.json` files contribute their records, malformed files nothing. -/
def goodDocs : List CorpusFile → List JVal
  | [] => []
  | f :: fs =>
    (if hasJsonExt f.name then
      match backendProcessFile f.data with
      | .ok ds => ds
      | .error _ => []
    else []) ++ goodDocs fs

/-- The names of the malformed `.json` files, i.e. the files the backend
loader warns about and skips. -/
def badNames : List CorpusFile → List (List Char)
  | [] => []
  | f :: fs =>
    (if hasJsonExt f.name then
      match backendProcessFile f.data with
      | .ok _ => []
      | .error _ => [f.name]
    else []) ++ badNames fs

/-- Modelled from the spec: the Chunker's segmentation loop.  The
repository delegates chunking to an external recursive text splitter
(`RecursiveCharacterTextSplitter(chunk_size=1000, chunk_overlap=100)`),
whose code is not part of the repository; §4.2 of the spec fixes the
contract instead: chunks of at most `size` characters, consecutive
chunks overlapping by exactly `overlap` characters, the final chunk
possibly shorter, rejoining lossless.  `fuel` bounds the recursion and
is instantiated with the document length, which always suffices. -/
def chunkGo (size overlap : Nat) : Nat → List Char → List (List Char)
  | 0, doc => [doc]
  | fuel + 1, doc =>
    if size ≤ overlap ∨ doc.length ≤ size then [doc]
    else doc.take size :: chunkGo size overlap fuel (doc.drop (size - overlap))

/-- Modelled from the spec: chunk one document (§4.2). -/
def chunkDoc (size overlap : Nat) (doc : List Char) : List (List Char) :=
  chunkGo size overlap doc.length doc

/-- Drop the duplicated `overlap`-character region from every chunk
after the first; used to state the lossless-rejoin property (§4.2). -/
def rejoinTail (overlap : Nat) : List (List Char) → List Char
  | [] => []
  | c :: cs => c.drop overlap ++ rejoinTail overlap cs

/-- Rejoin a chunk sequence, de-duplicating the overlapping regions. -/
def rejoinChunks (overlap : Nat) : List (List Char) → List Char
  | [] => []
  | c :: cs => c ++ rejoinTail overlap cs

/-- A document string accepted by the splitter; the external splitter
raises on non-string input, modelled as a `TypeError`. -/
def asDocString : JVal → Except PyExc (List Char)
  | .jstr s => .ok s.toList
  | _ => .error (.typeError "expected a string document")

/-- `split_text` of src/rag_pipeline.py (lines 25-28): split every
document with the configured parameters `chunk_size=1000`,
`chunk_overlap=100`; no `try`, so a failure propagates. -/
def split_text_root (docs : List JVal) : Except PyExc (List (List Char)) := do
  let ss ← docs.mapM asDocString
  pure (ss.map (chunkDoc 1000 100)).flatten

/-- `split_text` of src/backend/rag_pipeline.py (lines 56-68): the same
splitting inside `try`/`except`, returning `[]` on any failure. -/
def split_text_backend (docs : List JVal) : List (List Char) :=
  match docs.mapM asDocString with
  | .error _ => []
  | .ok ss => (ss.map (chunkDoc 1000 100)).flatten

/-- An embedding vector (§3: fixed-dimension numeric vector). -/
abbrev EmbVec : Type := List Int

/-- An embedding capability: deterministic (it is a function) and
fallible (`none` models an embedding failure), per §6. -/
abbrev EmbedFn : Type := List Char → Option EmbVec

/-- One persisted Index snapshot: chunk text paired with its embedding
vector (§3's Index mapping). -/
structure Snapshot : Type where
  entries : List (List Char × EmbVec)
deriving DecidableEq

/-- Modelled from the spec: embedding every chunk for one complete new
snapshot (§4.3 `build`).  The repository delegates this to the external
vector-store library; `none` is a build failure (some chunk failed to
embed), in which case nothing is produced. -/
def buildSnapshot (embed : EmbedFn) (texts : List (List Char)) : Option Snapshot :=
  (texts.mapM (fun t => (embed t).map (fun v => (t, v)))).map Snapshot.mk

/-- `create_vectorstore` of src/rag_pipeline.py (lines 30-35): no empty
guard and no `try`; the store is built and persisted, replacing the
current snapshot.  Persistence is delegated to the external library, so
the write semantics follow §4.3: write to a temporary location, then
atomically swap the current pointer; a failed build raises and leaves
the prior snapshot in place (Modelled from the spec). -/
def create_vectorstore_root (embed : EmbedFn) (texts : List (List Char))
    (db : Option Snapshot) : Except PyExc Snapshot × Option Snapshot :=
  match buildSnapshot embed texts with
  | none => (.error (.valueError "embedding capability failed"), db)
  | some s => (.ok s, some s)

/-- Outcome of the backend `create_vectorstore`: the Python return
value, the persisted snapshot afterwards, the printed log, and the
sequence of snapshots a concurrent reader of the "current" pointer can
observe while the call runs (one observation per chunk embedded during
the build, plus one after the final swap or abort). -/
structure StoreOutcome : Type where
  ret : Option Snapshot
  db : Option Snapshot
  log : List String
  trace : List (Option Snapshot)
deriving DecidableEq

/-- `create_vectorstore` of src/backend/rag_pipeline.py (lines 70-95):
an empty chunk list is reported (`print`) and answered with `None`
before any store call; otherwise the snapshot is built and persisted
inside `try`, with any failure caught and answered with `None`.  The
persistence itself is external; its write-to-temp-then-swap semantics
and the reader-visible trace follow §4.3 (Modelled from the spec). -/
def create_vectorstore_backend (embed : EmbedFn) (texts : List (List Char))
    (db : Option Snapshot) : StoreOutcome :=
  if texts.isEmpty then
    ⟨none, db, ["No texts to create vectorstore"], [db]⟩
  else
    match buildSnapshot embed texts with
    | none =>
      ⟨none, db, ["Error creating vectorstore"], (texts.map (fun _ => db)) ++ [db]⟩
    | some s =>
      ⟨some s, some s, ["Vector store created"], (texts.map (fun _ => db)) ++ [some s]⟩

/-- Inner product similarity score (§4.3: consistently applied). -/
def dotProd : EmbVec → EmbVec → Int
  | [], _ => 0
  | _, [] => 0
  | a :: as, b :: bs => a * b + dotProd as bs

/-- Insert into a list sorted by descending score, keeping earlier
entries first among ties (deterministic ranking). -/
def insertDesc (x : List Char × Int) : List (List Char × Int) → List (List Char × Int)
  | [] => [x]
  | y :: ys => if y.2 < x.2 then x :: y :: ys else y :: insertDesc x ys

/-- Sort scored chunks by descending score. -/
def rankDesc (l : List (List Char × Int)) : List (List Char × Int) :=
  l.foldr insertDesc []

/-- A retrieval failure (§4.4): no index, or query embedding failure. -/
inductive RetrievalErr : Type where
  | noIndex : RetrievalErr
  | embedFailed : RetrievalErr
deriving DecidableEq

/-- Modelled from the spec: the Retriever (§4.4) — embed the query with
the same capability, score every stored chunk, return the top `k` by
descending similarity.  The repository delegates this to the external
vector store's `as_retriever`. -/
def retrieve (embed : EmbedFn) (db : Option Snapshot) (q : List Char)
    (k : Nat) : Except RetrievalErr (List (List Char × Int)) :=
  match db with
  | none => .error .noIndex
  | some s =>
    match embed q with
    | none => .error .embedFailed
    | some v => .ok ((rankDesc (s.entries.map (fun e => (e.1, dotProd v e.2)))).take k)

/-- A generation capability (§6): context sources and query to answer
text; abstract and supplied as a parameter. -/
abbrev GenFn : Type := List String → String → String

/-- A value of the result dict of a `RetrievalQA` invocation. -/
inductive PyVal : Type where
  | pstr : String → PyVal
  | pdocs : List String → PyVal
deriving DecidableEq

/-- The configuration `RetrievalQA.from_chain_type` builds from its
keyword arguments: the `return_source_documents` flag (defaulting to
`False` when that exact keyword is not supplied) and the retriever's
top-k (the `as_retriever()` default of 4 in the root pipeline). -/
structure ChainCfg : Type where
  return_source_documents : Bool
  k : Nat
deriving DecidableEq

/-- `RetrievalQA.from_chain_type`'s keyword handling: only the keyword
spelled exactly `return_source_documents` sets the flag.  (The library
would in fact reject or ignore an unknown keyword; either way the flag
stays `False`, which is what matters here — we model the lenient
variant.) -/
def from_chain_type (opts : List (String × Bool)) : ChainCfg :=
  ⟨((opts.lookup "return_source_documents").getD false), 4⟩

/-- `create_qa_chain` of src/rag_pipeline.py (lines 37-48): note the
misspelled keyword `return_source_docuents=True` taken verbatim from
line 47 of the source. -/
def create_qa_chain_root : ChainCfg :=
  from_chain_type [("return_source_docuents", true)]

/-- One `qa_chain({"query": q})` invocation of the root pipeline:
retrieve the top-k chunks from the persisted store, synthesize an
answer with the generation capability, and return the result dict —
with a `source_documents` entry only when the chain was configured with
`return_source_documents`.  Retrieval or embedding failure raises. -/
def runChain (embed : EmbedFn) (gen : GenFn) (cfg : ChainCfg)
    (db : Option Snapshot) (q : String) : Except PyExc (List (String × PyVal)) :=
  match retrieve embed db q.toList cfg.k with
  | .error _ => .error (.valueError "retrieval failed")
  | .ok ranked =>
    let srcs := ranked.map (fun p => String.mk p.1)
    let ans := gen srcs q
    .ok ([("query", .pstr q), ("result", .pstr ans)] ++
      (if cfg.return_source_documents then [("source_documents", .pdocs srcs)] else []))

/-- `result[k]` on a Python dict: `KeyError` when absent. -/
def dictGetExc (d : List (String × PyVal)) (k : String) : Except PyExc PyVal :=
  match d.lookup k with
  | some v => .ok v
  | none => .error (.keyError k)

/-- Detail string of the 404 raised by `ask_question` (src/api.py 37-38). -/
def noDataDetail : String :=
  "No data found. Please scrape a topic first using the /scrape endpoint."

/-- The body of the `try` block of `ask_question` (src/api.py 34-43),
threading the persisted snapshot: load the corpus, 404 when empty,
split, rebuild the vector store, create the QA chain, run it, and
index the result dict.  Every raising step is an `.error`; the snapshot
component records the persisted index state when the step finishes. -/
def ask_question_try (embed : EmbedFn) (gen : GenFn) (q : String)
    (dir : Option (List CorpusFile)) (db : Option Snapshot) :
    Except PyExc (List (String × PyVal)) × Option Snapshot :=
  match load_documents_root dir with
  | .error e => (.error e, db)
  | .ok docs =>
    if docs.isEmpty then (.error (.httpException 404 noDataDetail), db)
    else
      match split_text_root docs with
      | .error e => (.error e, db)
      | .ok texts =>
        match create_vectorstore_root embed texts db with
        | (.error e, db1) => (.error e, db1)
        | (.ok _, db1) =>
          match runChain embed gen create_qa_chain_root db1 q with
          | .error e => (.error e, db1)
          | .ok result =>
            match dictGetExc result "result" with
            | .error e => (.error e, db1)
            | .ok a =>
              match dictGetExc result "source_documents" with
              | .error e => (.error e, db1)
              | .ok s => (.ok [("answer", a), ("source_documents", s)], db1)

/-- An HTTP response of the `/ask` endpoint: a JSON body on success, or
a status code plus detail string for a raised `HTTPException`. -/
inductive HttpResp : Type where
  | okJson : List (String × PyVal) → HttpResp
  | errDetail : Nat → String → HttpResp
deriving DecidableEq

/-- `ask_question` of src/api.py (lines 28-45): the whole `try` body
runs under `except Exception as e: raise HTTPException(500, str(e))`.
`HTTPException` is a subclass of `Exception`, so the 404 raised inside
the `try` is also caught here and resurfaces as a 500. -/
def ask_question (embed : EmbedFn) (gen : GenFn) (q : String)
    (dir : Option (List CorpusFile)) (db : Option Snapshot) :
    HttpResp × Option Snapshot :=
  match ask_question_try embed gen q dir db with
  | (.ok body, db1) => (.okJson body, db1)
  | (.error e, db1) => (.errDetail 500 (pyExcStr e), db1)

/-- The snapshot `ask_question` persists when loading, splitting and
building all succeed on the current corpus: a full rebuild from that
corpus, independent of the previous snapshot. -/
def rebuildOf (embed : EmbedFn) (dir : Option (List CorpusFile)) : Option Snapshot :=
  match load_documents_root dir with
  | .error _ => none
  | .ok docs =>
    match split_text_root docs with
    | .error _ => none
    | .ok texts => buildSnapshot embed texts

/-- A QA chain as `query_documents` sees it: a callable from the
question to the result dict, which may raise. -/
abbrev QAChain : Type := String → Except PyExc (List (String × PyVal))

/-- The no-documents answer of `query_documents` (backend lines 147-150). -/
def noDocsAnswer : String :=
  "No documents available for querying. Please upload research documents first."

/-- The list comprehension over `result.get("source_documents", [])`
(backend line 156): truncate each document to its first 200 characters;
an absent key yields `[]`; a non-document value makes the comprehension
raise (caught by the surrounding `except`). -/
def chainSources : Option PyVal → Except PyExc (List String)
  | none => .ok []
  | some (.pdocs ds) => .ok (ds.map (fun d => d.take 200 ++ "..."))
  | some (.pstr _) => .error (.typeError "str has no attribute page_content")

/-- The `try` block of `query_documents` (backend lines 152-157): call
the chain, index `result["result"]`, build the truncated source list;
each step may raise. -/
def qdTry (c : QAChain) (question : String) : Except PyExc (List (String × PyVal)) :=
  match c question with
  | .error e => .error e
  | .ok result =>
    match dictGetExc result "result" with
    | .error e => .error e
    | .ok a =>
      match chainSources (result.lookup "source_documents") with
      | .error e => .error e
      | .ok ss => .ok [("answer", a), ("sources", .pdocs ss)]

/-- `query_documents` of src/backend/rag_pipeline.py (lines 141-162).
`create_qa` stands for the result of the `create_qa_chain()` call made
when no chain is passed in; that function catches all its own errors
and returns `None` on any failure, hence an `Option`.  The chain
invocation and the result indexing run inside `try`, with any exception
turned into an error-answer dict. -/
def query_documents (create_qa : Option QAChain) (question : String)
    (qa_chain : Option QAChain) : Except PyExc (List (String × PyVal)) :=
  let qa := match qa_chain with
    | none => create_qa
    | some c => some c
  match qa with
  | none => .ok [("answer", .pstr noDocsAnswer), ("sources", .pdocs [])]
  | some c =>
    match qdTry c question with
    | .ok d => .ok d
    | .error e =>
      .ok [("answer", .pstr ("Error querying documents: " ++ pyExcStr e)),
           ("sources", .pdocs [])]

/-- One backend ingestion (§6 `ingest`): load, split, build/persist.
The loader cannot raise (see `load_documents_backend`); the error arm
is unreachable and leaves the store untouched. -/
def ingest_backend (embed : EmbedFn) (files : List CorpusFile)
    (db : Option Snapshot) : StoreOutcome :=
  match load_documents_backend (some files) with
  | .ok r => create_vectorstore_backend embed (split_text_backend r.documents) db
  | .error _ => ⟨none, db, [], [db]⟩

/-- A deterministic demonstration embedding: one-dimensional, the
document length. -/
def demoEmbed : EmbedFn := fun t => some [(t.length : Int)]

/-- An embedding capability that always fails. -/
def demoEmbedFail : EmbedFn := fun _ => none

/-- A demonstration generation capability. -/
def demoGen : GenFn := fun _ _ => "demo answer"

/-- A well-formed corpus file with one record. -/
def demoFile : CorpusFile :=
  ⟨"output.json".toList,
   .parsed (.jarr [.jobj [("content", .jstr "The Eiffel Tower is in Paris.")]])⟩

/-- A malformed corpus file (`json.load` raises on its contents). -/
def demoBadFile : CorpusFile :=
  ⟨"broken.json".toList, .malformed "not json"⟩

/-- Dict fields whose `content` entry is present but empty. -/
def demoFields : List (String × JVal) :=
  [("content", .jstr ""), ("text", .jstr "hello")]

/-- A short demonstration document for the chunker. -/
def demoDoc : List Char := "abcdefgh".toList

theorem chunkGo_ne_nil (s o f : Nat) (d : List Char) : chunkGo s o f d ≠ [] := by
  cases f with
  | zero => simp [chunkGo]
  | succ f =>
    unfold chunkGo
    split <;> simp

theorem chunkGo_cons (s o f : Nat) (d : List Char) :
    ∃ hd tl, chunkGo s o f d = hd :: tl ∧ (hd = d ∨ hd = d.take s) := by
  cases f with
  | zero => exact ⟨d, [], rfl, Or.inl rfl⟩
  | succ f =>
    unfold chunkGo
    split
    · exact ⟨d, [], rfl, Or.inl rfl⟩
    · exact ⟨d.take s, _, rfl, Or.inr rfl⟩

theorem chunkGo_length_le (s o : Nat) (ho : o < s) :
    ∀ f d, d.length ≤ f → ∀ c ∈ chunkGo s o f d, c.length ≤ s := by
  intro f
  induction f with
  | zero =>
    intro d hd c hc
    simp [chunkGo] at hc
    subst hc
    omega
  | succ f ih =>
    intro d hd c hc
    unfold chunkGo at hc
    by_cases hg : s ≤ o ∨ d.length ≤ s
    · rw [if_pos hg] at hc
      simp at hc
      subst hc
      omega
    · rw [if_neg hg] at hc
      push_neg at hg
      rw [List.mem_cons] at hc
      rcases hc with hc | hc
      · subst hc
        simp
      · exact ih (d.drop (s - o)) (by simp; omega) c hc

theorem chunkGo_pairs (s o : Nat) (ho : o < s) :
    ∀ f d, d.length ≤ f →
      ∀ p ∈ (chunkGo s o f d).zip (chunkGo s o f d).tail,
        p.1.drop (p.1.length - o) = p.2.take o ∧ o ≤ p.2.length := by
  intro f
  induction f with
  | zero =>
    intro d hd p hp
    simp [chunkGo] at hp
  | succ f ih =>
    intro d hd p hp
    unfold chunkGo at hp
    by_cases hg : s ≤ o ∨ d.length ≤ s
    · rw [if_pos hg] at hp
      simp at hp
    · rw [if_neg hg] at hp
      push_neg at hg
      obtain ⟨hdc, tl, hcs, hhd⟩ := chunkGo_cons s o f (d.drop (s - o))
      rw [hcs, List.tail_cons, List.zip_cons_cons, List.mem_cons] at hp
      have hlen : (d.drop (s - o)).length = d.length - (s - o) := List.length_drop _ _
      have hdlen : o < (d.drop (s - o)).length := by
        rw [hlen]; omega
      have hhdtake : hdc.take o = (d.drop (s - o)).take o := by
        rcases hhd with h1 | h1
        · rw [h1]
        · rw [h1, List.take_take, Nat.min_eq_left (by omega)]
      have hhdlen : o ≤ hdc.length := by
        rcases hhd with h1 | h1
        · rw [h1]; omega
        · rw [h1, List.length_take]; omega
      rcases hp with hp | hp
      · subst hp
        constructor
        · have h2 : (d.take s).length = s := by
            rw [List.length_take]; omega
          rw [h2, List.drop_take, hhdtake]
          congr 1
          omega
        · exact hhdlen
      · have := ih (d.drop (s - o)) (by rw [hlen]; omega) p
        rw [hcs, List.tail_cons] at this
        exact this hp

theorem chunkGo_rejoin (s o : Nat) (ho : o < s) :
    ∀ f d, d.length ≤ f → rejoinChunks o (chunkGo s o f d) = d := by
  intro f
  induction f with
  | zero =>
    intro d hd
    have : d = [] := List.length_eq_zero.mp (by omega)
    subst this
    simp [chunkGo, rejoinChunks, rejoinTail]
  | succ f ih =>
    intro d hd
    unfold chunkGo
    by_cases hg : s ≤ o ∨ d.length ≤ s
    · rw [if_pos hg]
      simp [rejoinChunks, rejoinTail]
    · rw [if_neg hg]
      push_neg at hg
      obtain ⟨hdc, tl, hcs, hhd⟩ := chunkGo_cons s o f (d.drop (s - o))
      have hih : rejoinChunks o (chunkGo s o f (d.drop (s - o))) = d.drop (s - o) :=
        ih (d.drop (s - o)) (by rw [List.length_drop]; omega)
      have hhdlen : o ≤ hdc.length := by
        rcases hhd with h1 | h1
        · rw [h1, List.length_drop]; omega
        · rw [h1, List.length_take, List.length_drop]; omega
      rw [hcs] at hih
      rw [rejoinChunks, hcs, rejoinTail]
      have hdrop : hdc.drop o ++ rejoinTail o tl = (d.drop (s - o)).drop o := by
        have := congrArg (List.drop o) hih
        rw [rejoinChunks, List.drop_append_of_le_length hhdlen] at this
        exact this
      rw [hdrop, List.drop_drop]
      have : s - o + o = s := by omega
      rw [this, List.take_append_drop]

/-- C3. Modelled from the spec (§4.2): every chunk is at most `size`
characters long; each pair of consecutive chunks overlaps in exactly the
configured `overlap` characters (the last `overlap` characters of the
earlier chunk are the first `overlap` characters of the later one, which
is at least that long); and rejoining the chunks while dropping each
duplicated overlap region reproduces the document losslessly. -/
theorem c3_chunker_invariants (size overlap : Nat) (doc : List Char)
    (h : overlap < size) :
    (∀ c ∈ chunkDoc size overlap doc, c.length ≤ size) ∧
    (∀ p ∈ (chunkDoc size overlap doc).zip (chunkDoc size overlap doc).tail,
      p.1.drop (p.1.length - overlap) = p.2.take overlap ∧ overlap ≤ p.2.length) ∧
    rejoinChunks overlap (chunkDoc size overlap doc) = doc := by
  refine ⟨?_, ?_, ?_⟩
  · exact chunkGo_length_le size overlap h doc.length doc (Nat.le_refl _)
  · exact chunkGo_pairs size overlap h doc.length doc (Nat.le_refl _)
  · exact chunkGo_rejoin size overlap h doc.length doc (Nat.le_refl _)

/-- Witness for C3 at the configured parameters (`chunk_size = 1000`,
`chunk_overlap = 100`) on a concrete document. -/
theorem c3_chunker_invariants_witness :
    100 < 1000 ∧
    ((∀ c ∈ chunkDoc 1000 100 demoDoc, c.length ≤ 1000) ∧
    (∀ p ∈ (chunkDoc 1000 100 demoDoc).zip (chunkDoc 1000 100 demoDoc).tail,
      p.1.drop (p.1.length - 100) = p.2.take 100 ∧ 100 ≤ p.2.length) ∧
    rejoinChunks 100 (chunkDoc 1000 100 demoDoc) = demoDoc) :=
  ⟨by omega, c3_chunker_invariants 1000 100 demoDoc (by omega)⟩

theorem pyRepr_jobj_ne (fs : List (String × JVal)) : pyRepr (.jobj fs) ≠ "" := by
  rw [pyRepr]
  intro h
  have h2 := congrArg String.length h
  rw [String.length_append, String.length_append] at h2
  have hb : ("\x7b" : String).length = 1 := rfl
  have he : ("\x7d" : String).length = 1 := rfl
  have hz : ("" : String).length = 0 := rfl
  omega

theorem pyOr_truthy (a b : JVal) (hb : pyTruthy b = true) :
    pyTruthy (pyOr a b) = true := by
  unfold pyOr
  split <;> simp_all

theorem pyOr_of_falsy (a b : JVal) (ha : pyTruthy a = false) : pyOr a b = b := by
  unfold pyOr
  simp [ha]

theorem resolveContent_fallback_truthy (fs : List (String × JVal)) :
    pyTruthy (.jstr (pyStr (.jobj fs))) = true := by
  have h := pyRepr_jobj_ne fs
  simp only [pyTruthy, pyStr, Bool.not_eq_true', beq_eq_false_iff_ne, ne_eq]
  exact h

/-- C10: the backend loader's field resolution never yields an empty
(falsy) document: a falsy `content` value falls through to `text`, then
`body`, then `str(item)`, and the final value is always truthy — in
particular, when it is a string it is a non-empty string. -/
theorem c10_resolve_content_fallthrough (fs : List (String × JVal)) :
    pyTruthy (resolveContent fs) = true ∧
    (∀ s, resolveContent fs = .jstr s → s ≠ "") ∧
    (pyTruthy (jgetD fs "content") = false →
      resolveContent fs =
        pyOr (jgetD fs "text")
          (pyOr (jgetD fs "body") (.jstr (pyStr (.jobj fs))))) := by
  have h1 : pyTruthy (resolveContent fs) = true :=
    pyOr_truthy _ _ (pyOr_truthy _ _ (pyOr_truthy _ _ (resolveContent_fallback_truthy fs)))
  refine ⟨h1, ?_, ?_⟩
  · intro s hs hse
    rw [hs, hse] at h1
    simp [pyTruthy] at h1
  · intro hc
    unfold resolveContent
    rw [pyOr_of_falsy _ _ hc]

/-- Witness for C10: a record whose `content` field is present but
empty resolves to its `text` field, a truthy value. -/
theorem c10_resolve_content_witness :
    pyTruthy (resolveContent demoFields) = true ∧
    resolveContent demoFields = .jstr "hello" :=
  ⟨(c10_resolve_content_fallthrough demoFields).1, rfl⟩

theorem load_documents_backend_fold (files : List CorpusFile) :
    ∀ acc : LoadResult,
      files.foldl
        (fun acc f =>
          if hasJsonExt f.name then
            match backendProcessFile f.data with
            | .ok ds => ⟨acc.documents ++ ds, acc.warnings⟩
            | .error _ => ⟨acc.documents, acc.warnings ++ [f.name]⟩
          else acc) acc
      = ⟨acc.documents ++ goodDocs files, acc.warnings ++ badNames files⟩ := by
  induction files with
  | nil => intro acc; simp [goodDocs, badNames]
  | cons f fs ih =>
    intro acc
    rw [List.foldl_cons]
    by_cases hj : hasJsonExt f.name
    · cases hpf : backendProcessFile f.data with
      | ok ds => simp [hj, hpf, ih, goodDocs, badNames]
      | error e => simp [hj, hpf, ih, goodDocs, badNames]
    · simp [hj, ih, goodDocs, badNames]

/-- C2 (amended, backend loader): the loader never raises — it returns
`.ok` on every input — its documents are exactly those of the valid
`.json` files in order, and its recorded warnings are exactly the names
of the malformed `.json` files; malformed files are skipped without
aborting the rest of the corpus. -/
theorem c2_backend_loader_skips_malformed (files : List CorpusFile) :
    load_documents_backend (some files) = .ok ⟨goodDocs files, badNames files⟩ := by
  have h := load_documents_backend_fold files ⟨[], []⟩
  simp only [List.nil_append] at h
  exact congrArg Except.ok h

/-- C2 counterexample: the root loader (src/rag_pipeline.py), also cited
by the claim, does not skip a malformed file — with a corpus holding one
valid file and one malformed file it propagates `JSONDecodeError`,
aborting the load and returning none of the valid documents. -/
theorem c2_root_loader_raises :
    load_documents_root (some [demoFile, demoBadFile]) =
      .error (.jsonDecodeError "not json") := rfl

/-- C8: calling the backend index build with an empty chunk list is a
no-op — the persisted snapshot is untouched (the early return happens
before any store call), the Python return value is `None`, and the
advisory message is printed; reader observations stay on the prior
snapshot. -/
theorem c8_empty_build_is_advisory_noop (embed : EmbedFn) (db : Option Snapshot) :
    create_vectorstore_backend embed [] db =
      ⟨none, db, ["No texts to create vectorstore"], [db]⟩ := rfl

theorem buildSnapshot_nil (embed : EmbedFn) : buildSnapshot embed [] = some ⟨[]⟩ := rfl

/-- C4: when a build fails partway (some chunk fails to embed, so
`buildSnapshot` is `none`), the persisted snapshot afterwards is still
the prior one, and every reader observation during the failed build is
the prior snapshot — never a mix of old and new. -/
theorem c4_failed_build_retains_snapshot (embed : EmbedFn) (texts : List (List Char))
    (db : Option Snapshot) (h : buildSnapshot embed texts = none) :
    (create_vectorstore_backend embed texts db).db = db ∧
    ∀ x ∈ (create_vectorstore_backend embed texts db).trace, x = db := by
  have hne : texts.isEmpty = false := by
    cases texts with
    | nil => rw [buildSnapshot_nil] at h; exact absurd h (by simp)
    | cons t ts => rfl
  have htr : (create_vectorstore_backend embed texts db).trace
      = (texts.map (fun _ => db)) ++ [db] := by
    simp [create_vectorstore_backend, hne, h]
  constructor
  · simp [create_vectorstore_backend, hne, h]
  · intro x hx
    rw [htr, List.mem_append] at hx
    rcases hx with hx | hx
    · obtain ⟨t, _, ht⟩ := List.mem_map.mp hx
      exact ht.symm
    · simpa using hx

/-- Witness for C4: a concrete failing embedding capability on a
one-chunk build leaves the (empty) prior snapshot in place. -/
theorem c4_failed_build_retains_snapshot_witness :
    buildSnapshot demoEmbedFail [demoDoc] = none ∧
    ((create_vectorstore_backend demoEmbedFail [demoDoc] none).db = none ∧
     ∀ x ∈ (create_vectorstore_backend demoEmbedFail [demoDoc] none).trace, x = none) :=
  ⟨rfl, c4_failed_build_retains_snapshot demoEmbedFail [demoDoc] none rfl⟩

theorem vectorstore_db_idempotent (embed : EmbedFn) (texts : List (List Char))
    (db : Option Snapshot) :
    (create_vectorstore_backend embed texts
        ((create_vectorstore_backend embed texts db).db)).db
      = (create_vectorstore_backend embed texts db).db := by
  by_cases he : texts.isEmpty
  · simp [create_vectorstore_backend, he]
  · cases hb : buildSnapshot embed texts with
    | none => simp [create_vectorstore_backend, he, hb]
    | some s => simp [create_vectorstore_backend, he, hb]

theorem load_documents_backend_ok (files : List CorpusFile) :
    load_documents_backend (some files) = .ok ⟨goodDocs files, badNames files⟩ := by
  have h := load_documents_backend_fold files ⟨[], []⟩
  simp only [List.nil_append] at h
  exact congrArg Except.ok h

theorem ingest_backend_eq (embed : EmbedFn) (files : List CorpusFile)
    (db : Option Snapshot) :
    ingest_backend embed files db
      = create_vectorstore_backend embed (split_text_backend (goodDocs files)) db := by
  unfold ingest_backend
  rw [load_documents_backend_ok files]

/-- C7: ingesting the same unchanged corpus twice with a deterministic
embedding capability leaves the persisted snapshot exactly as after one
ingestion, so any fixed query retrieves the identical ranked results. -/
theorem c7_ingest_idempotent_retrieval (embed : EmbedFn) (files : List CorpusFile)
    (db : Option Snapshot) (q : List Char) (k : Nat) :
    (ingest_backend embed files ((ingest_backend embed files db).db)).db
      = (ingest_backend embed files db).db ∧
    retrieve embed ((ingest_backend embed files ((ingest_backend embed files db).db)).db) q k
      = retrieve embed ((ingest_backend embed files db).db) q k := by
  simp only [ingest_backend_eq]
  have h := vectorstore_db_idempotent embed (split_text_backend (goodDocs files)) db
  exact ⟨h, by rw [h]⟩


theorem qdTry_ok_shape (c : QAChain) (q : String) (d : List (String × PyVal))
    (h : qdTry c q = .ok d) :
    ∃ a ss, d = [("answer", a), ("sources", .pdocs ss)] := by
  unfold qdTry at h
  cases hc : c q with
  | error e =>
    rw [hc] at h
    exact Except.noConfusion h
  | ok result =>
    rw [hc] at h
    cases ha : dictGetExc result "result" with
    | error e =>
      simp only [ha] at h
      exact Except.noConfusion h
    | ok a =>
      simp only [ha] at h
      cases hs : chainSources (result.lookup "source_documents") with
      | error e =>
        simp only [hs] at h
        exact Except.noConfusion h
      | ok ss =>
        simp only [hs] at h
        injection h with h
        exact ⟨a, ss, h.symm⟩

/-- C9: for every question and every state of the QA chain — absent,
present, or raising during invocation — `query_documents` returns
(never raises) a dict holding both an `answer` and a `sources` key. -/
theorem c9_query_documents_total (create_qa : Option QAChain) (q : String)
    (qa_chain : Option QAChain) :
    ∃ d, query_documents create_qa q qa_chain = .ok d ∧
      (d.lookup "answer").isSome ∧ (d.lookup "sources").isSome := by
  have hkeys : ∀ (a : PyVal) (ss : List String),
      ((([("answer", a), ("sources", .pdocs ss)] :
        List (String × PyVal)).lookup "answer").isSome ∧
       (([("answer", a), ("sources", .pdocs ss)] :
        List (String × PyVal)).lookup "sources").isSome) := by
    intro a ss
    constructor <;> simp [List.lookup]
  have hchain : ∀ c : QAChain,
      ∃ d, (match qdTry c q with
        | .ok d1 => Except.ok (ε := PyExc) d1
        | .error e =>
          .ok [("answer", .pstr ("Error querying documents: " ++ pyExcStr e)),
               ("sources", .pdocs [])]) = .ok d ∧
        (d.lookup "answer").isSome ∧ (d.lookup "sources").isSome := by
    intro c
    cases hq : qdTry c q with
    | ok d1 =>
      obtain ⟨a, ss, hd⟩ := qdTry_ok_shape c q d1 hq
      subst hd
      exact ⟨_, rfl, hkeys a ss⟩
    | error e =>
      exact ⟨_, rfl, hkeys _ _⟩
  cases qa_chain with
  | some c => exact hchain c
  | none =>
    cases create_qa with
    | none => exact ⟨_, rfl, hkeys _ _⟩
    | some c => exact hchain c

theorem ask_question_snd (embed : EmbedFn) (gen : GenFn) (q : String)
    (dir : Option (List CorpusFile)) (db : Option Snapshot) :
    (ask_question embed gen q dir db).2 = (ask_question_try embed gen q dir db).2 := by
  unfold ask_question
  rcases h : ask_question_try embed gen q dir db with ⟨r, db1⟩
  cases r <;> simp [h]

/-- C1 (amended): `ask` does not leave the persisted index unchanged —
whenever loading yields a nonempty document list and splitting and
embedding succeed, `ask` overwrites the index with the snapshot rebuilt
from the current corpus (regardless of the prior index, and even when
the HTTP response is an error); and the index stays as it was only in
the remaining case, i.e. when the pipeline fails before completing the
build (load failure, empty corpus, split failure or embedding failure). -/
theorem c1_ask_rebuilds_index (embed : EmbedFn) (gen : GenFn) (q : String)
    (dir : Option (List CorpusFile)) (db : Option Snapshot) :
    (∀ docs texts s,
      load_documents_root dir = .ok docs → docs.isEmpty = false →
      split_text_root docs = .ok texts → buildSnapshot embed texts = some s →
      (ask_question embed gen q dir db).2 = some s ∧
      rebuildOf embed dir = some s) ∧
    ((¬ ∃ docs texts s,
        load_documents_root dir = .ok docs ∧ docs.isEmpty = false ∧
        split_text_root docs = .ok texts ∧ buildSnapshot embed texts = some s) →
      (ask_question embed gen q dir db).2 = db) := by
  constructor
  · intro docs texts s hl hd hs hb
    constructor
    · rw [ask_question_snd]
      unfold ask_question_try
      simp only [hl, hd, Bool.false_eq_true, if_false, hs, create_vectorstore_root, hb]
      cases hr : runChain embed gen create_qa_chain_root (some s) q with
      | error e => rfl
      | ok result =>
        cases hra : dictGetExc result "result" with
        | error e => simp [hra]
        | ok a =>
          cases hrs : dictGetExc result "source_documents" with
          | error e => simp [hra, hrs]
          | ok sv => simp [hra, hrs]
    · simp [rebuildOf, hl, hs, hb]
  · intro hno
    rw [ask_question_snd]
    unfold ask_question_try
    cases hl : load_documents_root dir with
    | error e => rfl
    | ok docs =>
      cases hd : docs.isEmpty with
      | true => simp [hd]
      | false =>
        simp only [hd, Bool.false_eq_true, if_false]
        cases hs : split_text_root docs with
        | error e => rfl
        | ok texts =>
          cases hb : buildSnapshot embed texts with
          | none => simp [create_vectorstore_root, hb]
          | some s => exact absurd ⟨docs, texts, s, hl, hd, hs, hb⟩ hno

/-- Witness for C1 (amended) at a concrete corpus: with one valid
record and an empty prior index, the success branch applies and the
persisted index after `ask` is exactly the snapshot rebuilt from the
corpus. -/
theorem c1_ask_rebuilds_index_witness :
    (ask_question demoEmbed demoGen "any question" (some [demoFile]) none).2
      = some ⟨[("The Eiffel Tower is in Paris.".toList, [29])]⟩ ∧
    rebuildOf demoEmbed (some [demoFile])
      = some ⟨[("The Eiffel Tower is in Paris.".toList, [29])]⟩ :=
  (c1_ask_rebuilds_index demoEmbed demoGen "any question" (some [demoFile]) none).1
    [.jstr "The Eiffel Tower is in Paris."]
    ["The Eiffel Tower is in Paris.".toList]
    ⟨[("The Eiffel Tower is in Paris.".toList, [29])]⟩
    rfl rfl rfl rfl

/-- C1 counterexample: a single query against a one-record corpus with
an empty persisted index rebuilds the index as a side effect of the
query — the snapshot observed after `ask` differs from the snapshot
before it, refuting "the index state observed before and after the
query is the same snapshot". -/
theorem c1_ask_mutates_index_counterexample :
    (ask_question demoEmbed demoGen "any question" (some [demoFile]) none).2 ≠ none := by
  decide

/-- C5 (code bug): `ask` before any ingestion (data directory present
but empty) does not surface the intended 404 "no data" result: the 404
`HTTPException` raised inside the `try` block is caught by the
function's own `except Exception` clause and re-raised as a generic
HTTP 500 whose detail merely stringifies the 404. -/
theorem c5_preingestion_ask_returns_500 :
    ask_question demoEmbed demoGen "any question" (some []) none =
      (.errDetail 500 (pyExcStr (.httpException 404 noDataDetail)), none) := rfl

/-- C6 (code bug): with a valid one-record corpus, an `ask` that reaches
answer construction fails with `KeyError("source_documents")`, surfaced
as HTTP 500: `create_qa_chain` passes the misspelled keyword
`return_source_docuents`, so the chain result never carries source
documents and no `ask` response can include them. -/
theorem c6_ask_sources_keyerror :
    (ask_question demoEmbed demoGen "Where is the Eiffel Tower?" (some [demoFile]) none).1
      = .errDetail 500 (pyExcStr (.keyError "source_documents")) := rfl
